import Mathlib

/-!
Shallow embedding of the Celix conan recipe (`conanfile.py`): the
configuration-resolution engine (`configure`), the validator (`validate`)
and the identity normalizer (`package_id`), together with theorems about
the claims of the specification.
-/

set_option maxRecDepth 10000

namespace Celix

/-- The boolean feature flags of the recipe, in the declaration order of
`_celix_defaults` (conanfile.py lines 44-108). -/
inductive Flag where
  | enable_testing
  | enable_code_coverage
  | enable_address_sanitizer
  | enable_undefined_sanitizer
  | enable_thread_sanitizer
  | enable_testing_dependency_manager_for_cxx11
  | enable_testing_for_cxx14
  | build_all
  | build_deployment_admin
  | build_http_admin
  | build_log_service
  | build_log_helper
  | build_log_service_api
  | build_syslog_writer
  | build_pubsub
  | build_pubsub_wire_protocol_v1
  | build_pubsub_wire_protocol_v2
  | build_pubsub_json_serializer
  | build_pubsub_avrobin_serializer
  | build_pubsub_psa_zmq
  | build_pubsub_examples
  | build_pubsub_integration
  | build_pubsub_psa_tcp
  | build_pubsub_psa_udp_mc
  | build_pubsub_psa_ws
  | build_pubsub_discovery_etcd
  | build_cxx_remote_service_admin
  | build_cxx_rsa_integration
  | build_remote_service_admin
  | build_rsa_remote_service_admin_dfi
  | build_rsa_discovery_common
  | build_rsa_discovery_configured
  | build_rsa_discovery_etcd
  | build_rsa_remote_service_admin_shm_v2
  | build_rsa_json_rpc
  | build_rsa_discovery_zeroconf
  | build_shell
  | build_shell_api
  | build_remote_shell
  | build_shell_bonjour
  | build_shell_tui
  | build_shell_wui
  | build_components_ready_check
  | build_examples
  | build_celix_etcdlib
  | build_launcher
  | build_promises
  | build_pushstreams
  | build_experimental
  | build_celix_dfi
  | build_dependency_manager
  | build_dependency_manager_cxx
  | build_framework
  | build_rcm
  | build_utils
  | celix_cxx14
  | celix_cxx17
  | celix_install_deprecated_api
  | celix_use_compression_for_bundle_zips
  | enable_cmake_warning_tests
  | enable_testing_on_ci
  | framework_curlinit
  | enable_ccache
  deriving DecidableEq, Fintype, Repr

open Flag

/-- The python identifier of each flag (the key in `_celix_defaults`). -/
def flagName : Flag → String
  | enable_testing => "enable_testing"
  | enable_code_coverage => "enable_code_coverage"
  | enable_address_sanitizer => "enable_address_sanitizer"
  | enable_undefined_sanitizer => "enable_undefined_sanitizer"
  | enable_thread_sanitizer => "enable_thread_sanitizer"
  | enable_testing_dependency_manager_for_cxx11 => "enable_testing_dependency_manager_for_cxx11"
  | enable_testing_for_cxx14 => "enable_testing_for_cxx14"
  | build_all => "build_all"
  | build_deployment_admin => "build_deployment_admin"
  | build_http_admin => "build_http_admin"
  | build_log_service => "build_log_service"
  | build_log_helper => "build_log_helper"
  | build_log_service_api => "build_log_service_api"
  | build_syslog_writer => "build_syslog_writer"
  | build_pubsub => "build_pubsub"
  | build_pubsub_wire_protocol_v1 => "build_pubsub_wire_protocol_v1"
  | build_pubsub_wire_protocol_v2 => "build_pubsub_wire_protocol_v2"
  | build_pubsub_json_serializer => "build_pubsub_json_serializer"
  | build_pubsub_avrobin_serializer => "build_pubsub_avrobin_serializer"
  | build_pubsub_psa_zmq => "build_pubsub_psa_zmq"
  | build_pubsub_examples => "build_pubsub_examples"
  | build_pubsub_integration => "build_pubsub_integration"
  | build_pubsub_psa_tcp => "build_pubsub_psa_tcp"
  | build_pubsub_psa_udp_mc => "build_pubsub_psa_udp_mc"
  | build_pubsub_psa_ws => "build_pubsub_psa_ws"
  | build_pubsub_discovery_etcd => "build_pubsub_discovery_etcd"
  | build_cxx_remote_service_admin => "build_cxx_remote_service_admin"
  | build_cxx_rsa_integration => "build_cxx_rsa_integration"
  | build_remote_service_admin => "build_remote_service_admin"
  | build_rsa_remote_service_admin_dfi => "build_rsa_remote_service_admin_dfi"
  | build_rsa_discovery_common => "build_rsa_discovery_common"
  | build_rsa_discovery_configured => "build_rsa_discovery_configured"
  | build_rsa_discovery_etcd => "build_rsa_discovery_etcd"
  | build_rsa_remote_service_admin_shm_v2 => "build_rsa_remote_service_admin_shm_v2"
  | build_rsa_json_rpc => "build_rsa_json_rpc"
  | build_rsa_discovery_zeroconf => "build_rsa_discovery_zeroconf"
  | build_shell => "build_shell"
  | build_shell_api => "build_shell_api"
  | build_remote_shell => "build_remote_shell"
  | build_shell_bonjour => "build_shell_bonjour"
  | build_shell_tui => "build_shell_tui"
  | build_shell_wui => "build_shell_wui"
  | build_components_ready_check => "build_components_ready_check"
  | build_examples => "build_examples"
  | build_celix_etcdlib => "build_celix_etcdlib"
  | build_launcher => "build_launcher"
  | build_promises => "build_promises"
  | build_pushstreams => "build_pushstreams"
  | build_experimental => "build_experimental"
  | build_celix_dfi => "build_celix_dfi"
  | build_dependency_manager => "build_dependency_manager"
  | build_dependency_manager_cxx => "build_dependency_manager_cxx"
  | build_framework => "build_framework"
  | build_rcm => "build_rcm"
  | build_utils => "build_utils"
  | celix_cxx14 => "celix_cxx14"
  | celix_cxx17 => "celix_cxx17"
  | celix_install_deprecated_api => "celix_install_deprecated_api"
  | celix_use_compression_for_bundle_zips => "celix_use_compression_for_bundle_zips"
  | enable_cmake_warning_tests => "enable_cmake_warning_tests"
  | enable_testing_on_ci => "enable_testing_on_ci"
  | framework_curlinit => "framework_curlinit"
  | enable_ccache => "enable_ccache"

/-- The default value of each flag (`_celix_defaults`, lines 44-108): all
false except `celix_cxx14`, `celix_cxx17`,
`celix_use_compression_for_bundle_zips` and `framework_curlinit`. -/
def celix_defaults : Flag → Bool
  | celix_cxx14 => true
  | celix_cxx17 => true
  | celix_use_compression_for_bundle_zips => true
  | framework_curlinit => true
  | _ => false

/-- All flags, in `_celix_defaults` declaration order. -/
def allFlags : List Flag :=
  [enable_testing, enable_code_coverage, enable_address_sanitizer,
   enable_undefined_sanitizer, enable_thread_sanitizer,
   enable_testing_dependency_manager_for_cxx11, enable_testing_for_cxx14,
   build_all, build_deployment_admin, build_http_admin, build_log_service,
   build_log_helper, build_log_service_api, build_syslog_writer, build_pubsub,
   build_pubsub_wire_protocol_v1, build_pubsub_wire_protocol_v2,
   build_pubsub_json_serializer, build_pubsub_avrobin_serializer,
   build_pubsub_psa_zmq, build_pubsub_examples, build_pubsub_integration,
   build_pubsub_psa_tcp, build_pubsub_psa_udp_mc, build_pubsub_psa_ws,
   build_pubsub_discovery_etcd, build_cxx_remote_service_admin,
   build_cxx_rsa_integration, build_remote_service_admin,
   build_rsa_remote_service_admin_dfi, build_rsa_discovery_common,
   build_rsa_discovery_configured, build_rsa_discovery_etcd,
   build_rsa_remote_service_admin_shm_v2, build_rsa_json_rpc,
   build_rsa_discovery_zeroconf, build_shell, build_shell_api,
   build_remote_shell, build_shell_bonjour, build_shell_tui, build_shell_wui,
   build_components_ready_check, build_examples, build_celix_etcdlib,
   build_launcher, build_promises, build_pushstreams, build_experimental,
   build_celix_dfi, build_dependency_manager, build_dependency_manager_cxx,
   build_framework, build_rcm, build_utils, celix_cxx14, celix_cxx17,
   celix_install_deprecated_api, celix_use_compression_for_bundle_zips,
   enable_cmake_warning_tests, enable_testing_on_ci, framework_curlinit,
   enable_ccache]

/-- A complete flag valuation: the working `options` dict of `configure`
(and the resolved configuration it produces). -/
abbrev Config := Flag → Bool

/-- The user-supplied overrides: `self.options.get_safe(opt).value`, which
is `None` for a flag the user did not set. -/
abbrev Overrides := Flag → Option Bool

/-- `options[f] = b` on a working mapping. -/
def setFlag (s : Config) (f : Flag) (b : Bool) : Config :=
  fun g => if g = f then b else s g

/-- Set every flag in `fs` to `True` (a sequence of `options[f] = True`
assignments). -/
def setAllTrue (s : Config) (fs : List Flag) : Config :=
  fs.foldl (fun a f => setFlag a f true) s

/-- Structural prefix test on character lists (the semantics of python's
`str.startswith`). -/
def strPrefixOf : List Char → List Char → Bool
  | [], _ => true
  | _ :: _, [] => false
  | a :: as, b :: bs => a == b && strPrefixOf as bs

/-- `name.startswith("build_")` for a flag identifier. -/
def isBuildFlag (f : Flag) : Bool :=
  strPrefixOf "build_".data (flagName f).data

/-- The flags whose identifier begins with `build_`. -/
def buildFlags : List Flag := allFlags.filter (fun f => isBuildFlag f)

/-- One implication rule of the cascade in `configure` (lines 181-342): an
`if`-block whose condition is a disjunction of flags (`anyOf`), possibly
strengthened by a nested conjunct (`allOf`), and whose body sets every flag
in `sets` to `True`.  Every assignment in the cascade region of the source
assigns `True`. -/
structure Rule where
  anyOf : List Flag
  allOf : List Flag
  sets : List Flag
  deriving DecidableEq

/-- The trigger condition of a rule on the current working mapping. -/
def Rule.holds (r : Rule) (s : Config) : Bool :=
  (r.anyOf.any fun f => s f) && (r.allOf.all fun f => s f)

/-- Evaluate one `if`-block: if the condition holds on the current mapping,
assign `True` to each target flag. -/
def applyRule (s : Config) (r : Rule) : Config :=
  if r.holds s then setAllTrue s r.sets else s

/-- Evaluate the `if`-blocks left to right, each seeing the effects of the
earlier ones (a single forward pass, not a fixed point). -/
def applyRules (s : Config) (L : List Rule) : Config :=
  L.foldl applyRule s

/-- The implication cascade of `configure` (lines 181-342), one `Rule` per
`if`-block in source order.  The nested conditional at lines 311-314
(`build_log_service_api` with inner `celix_install_deprecated_api`) is split
into two consecutive rules, the second carrying the inner conjunct in
`allOf`. -/
def ruleList : List Rule :=
  [⟨[enable_code_coverage], [], [enable_testing]⟩,
   ⟨[build_examples], [],
     [build_shell_tui, build_shell_wui, build_log_service, build_syslog_writer]⟩,
   ⟨[build_shell_bonjour], [], [build_shell]⟩,
   ⟨[build_deployment_admin], [], [build_framework]⟩,
   ⟨[build_cxx_rsa_integration], [],
     [build_cxx_remote_service_admin, build_pushstreams, build_promises,
      build_log_helper, build_shell, build_shell_tui, build_shell_api,
      build_pubsub, build_pubsub_wire_protocol_v2, build_pubsub_json_serializer,
      build_pubsub_psa_zmq, build_pubsub_discovery_etcd]⟩,
   ⟨[build_pubsub_integration], [],
     [build_pubsub, build_shell_tui, build_pubsub_json_serializer,
      build_pubsub_wire_protocol_v2, build_pubsub_wire_protocol_v1,
      enable_testing]⟩,
   ⟨[build_pubsub_examples], [],
     [build_log_service, build_shell_tui, build_pubsub_json_serializer,
      build_pubsub_discovery_etcd, build_pubsub_wire_protocol_v2,
      build_pubsub_wire_protocol_v1]⟩,
   ⟨[build_pubsub_discovery_etcd], [], [build_pubsub, build_celix_etcdlib]⟩,
   ⟨[build_pubsub_psa_ws], [], [build_http_admin, build_pubsub]⟩,
   ⟨[build_pubsub_psa_zmq, build_pubsub_psa_tcp, build_pubsub_psa_udp_mc], [],
     [build_pubsub]⟩,
   ⟨[build_pubsub_wire_protocol_v1], [], [build_pubsub]⟩,
   ⟨[build_pubsub_wire_protocol_v2], [], [build_pubsub]⟩,
   ⟨[build_pubsub_json_serializer, build_pubsub_avrobin_serializer], [],
     [build_pubsub]⟩,
   ⟨[build_pubsub], [],
     [build_framework, build_celix_dfi, build_shell_api, build_log_helper,
      celix_install_deprecated_api]⟩,
   ⟨[build_cxx_remote_service_admin], [],
     [build_framework, build_log_helper, celix_cxx17]⟩,
   ⟨[build_rsa_discovery_etcd], [],
     [build_celix_etcdlib, build_rsa_discovery_common]⟩,
   ⟨[build_rsa_discovery_configured], [], [build_rsa_discovery_common]⟩,
   ⟨[build_rsa_discovery_common, build_rsa_discovery_zeroconf,
     build_rsa_remote_service_admin_dfi, build_rsa_json_rpc,
     build_rsa_remote_service_admin_shm_v2], [], [build_remote_service_admin]⟩,
   ⟨[build_remote_service_admin], [],
     [build_framework, build_log_helper, build_celix_dfi,
      celix_install_deprecated_api]⟩,
   ⟨[build_remote_shell], [], [build_shell]⟩,
   ⟨[build_shell_wui], [], [build_shell, build_http_admin]⟩,
   ⟨[build_shell_tui], [], [build_shell]⟩,
   ⟨[build_shell], [], [build_shell_api, build_log_helper, build_framework]⟩,
   ⟨[build_http_admin], [], [build_framework]⟩,
   ⟨[build_syslog_writer], [], [build_log_service]⟩,
   ⟨[build_log_service], [],
     [build_log_service_api, build_shell_api, build_framework,
      build_log_helper]⟩,
   ⟨[build_shell_api], [], [build_utils]⟩,
   ⟨[build_log_helper], [], [build_log_service_api, build_framework]⟩,
   ⟨[build_log_service_api], [], [build_utils]⟩,
   ⟨[build_log_service_api], [celix_install_deprecated_api], [build_framework]⟩,
   ⟨[build_components_ready_check], [], [build_framework]⟩,
   ⟨[build_rcm], [], [build_utils]⟩,
   ⟨[build_launcher, build_dependency_manager], [], [build_framework]⟩,
   ⟨[build_dependency_manager_cxx], [], [build_framework, celix_cxx14]⟩,
   ⟨[build_celix_dfi], [], [build_utils]⟩,
   ⟨[build_framework], [], [build_utils]⟩,
   ⟨[build_pushstreams], [], [build_promises]⟩,
   ⟨[build_promises], [], [celix_cxx17]⟩,
   ⟨[celix_cxx17], [], [celix_cxx14]⟩]

/-- Step 1 of `configure` (lines 164-169): take the user-supplied value of
each flag and fall back to `_celix_defaults` where the user set nothing. -/
def fillDefaults (ovr : Overrides) : Config :=
  fun f => (ovr f).getD (celix_defaults f)

/-- Step 2 of `configure` (lines 171-174): if `build_all` is set, force
every flag whose identifier starts with `build_` to `True`. -/
def applyBuildAll (s : Config) : Config :=
  if s build_all then setAllTrue s buildFlags else s

/-- Step 3 of `configure` (lines 176-179): on any target OS other than
Linux, force `build_rsa_remote_service_admin_shm_v2`,
`build_rsa_discovery_zeroconf` and `build_shell_bonjour` to `False`. -/
def applyPlatform (os : String) (s : Config) : Config :=
  if os ≠ "Linux" then
    setFlag (setFlag (setFlag s build_rsa_remote_service_admin_shm_v2 false)
      build_rsa_discovery_zeroconf false) build_shell_bonjour false
  else s

/-- The full resolution pipeline of `configure` (lines 163-346): defaults
and overrides, then the `build_all` bulk step, then the platform forcing,
then the implication cascade. -/
def configure (ovr : Overrides) (os : String) : Config :=
  applyRules (applyPlatform os (applyBuildAll (fillDefaults ovr))) ruleList

/-- Feed a resolved configuration back as user overrides (every flag now
explicitly supplied). -/
def toOverrides (s : Config) : Overrides := fun f => some (s f)

/-- One digit of a decimal literal. -/
def decDigits : List Char → Nat → Option Nat
  | [], acc => some acc
  | c :: cs, acc =>
      if c.isDigit then decDigits cs (10 * acc + (c.toNat - 48)) else none

/-- The semantics of python's `int(...)` on the decimal strings relevant
here: an optional sign followed by at least one digit; `none` models the
`ValueError` raised on anything else. -/
def pyInt (s : String) : Option Int :=
  match s.data with
  | [] => none
  | '-' :: [] => none
  | '-' :: cs => (decDigits cs 0).map fun n => -(n : Int)
  | '+' :: [] => none
  | '+' :: cs => (decDigits cs 0).map fun n => (n : Int)
  | cs => (decDigits cs 0).map fun n => (n : Int)

/-- `validate` (lines 122-140).  The checks are evaluated in source order
and the first failing one raises `ConanInvalidConfiguration`; the result is
`some message` for the first raised error and `none` on success.
`opts` is the (already configured) option mapping and `bufSize` the value
of `celix_err_buffer_size`. -/
def validate (opts : Config) (bufSize : String) (os : String) : Option String :=
  if os ≠ "Linux" ∧ os ≠ "Macos" then
    some "Celix is only supported for Linux/Macos"
  else if opts build_rsa_remote_service_admin_shm_v2 = true ∧ os ≠ "Linux" then
    some "Celix build_rsa_remote_service_admin_shm_v2 is only supported for Linux"
  else if opts build_rsa_discovery_zeroconf = true ∧ os ≠ "Linux" then
    some "Celix build_rsa_discovery_zeroconf is only supported for Linux"
  else if opts build_shell_bonjour = true ∧ os ≠ "Linux" then
    some "Celix build_shell_bonjour is only supported for Linux"
  else
    match pyInt bufSize with
    | none => some "celix_err_buffer_size must be a positive number"
    | some v =>
        if v ≤ 0 then some "celix_err_buffer_size must be a positive number"
        else none

/-- The flags deleted from `self.info.options` in `package_id`
(lines 142-154). -/
def identityExcluded (f : Flag) : Bool :=
  match f with
  | build_all | build_pubsub_integration | build_pubsub_examples
  | build_cxx_rsa_integration | build_examples | build_shell_bonjour
  | enable_testing_dependency_manager_for_cxx11 | enable_testing_for_cxx14
  | enable_cmake_warning_tests | enable_testing_on_ci | enable_ccache => true
  | _ => false

/-- The identity key derived by `package_id`: the resolved boolean options
with the excluded flags deleted (`none`); all remaining flags keep their
resolved value. -/
def package_id (opts : Config) : Flag → Option Bool :=
  fun f => if identityExcluded f then none else some (opts f)

/-! ### Concrete inputs used in the theorems below -/

/-- No user overrides. -/
def ovrEmpty : Overrides := fun _ => none

/-- Only `build_shell_bonjour = True` supplied by the user. -/
def ovrBonjour : Overrides :=
  fun f => if f = build_shell_bonjour then some true else none

/-- Only `build_remote_shell = True` supplied by the user. -/
def ovrRemoteShell : Overrides :=
  fun f => if f = build_remote_shell then some true else none

/-- `build_remote_shell = True` together with an explicit
`build_shell = False`. -/
def ovrRemoteShellNoShell : Overrides :=
  fun f =>
    if f = build_remote_shell then some true
    else if f = build_shell then some false else none

/-- Only `build_all = True` supplied by the user. -/
def ovrAll : Overrides := fun f => if f = build_all then some true else none

/-- Every flag at its registry default. -/
def defaultConfig : Config := fillDefaults ovrEmpty

/-- The default configuration with
`build_rsa_remote_service_admin_shm_v2` switched on (a configuration handed
directly to the validator). -/
def shmConfig : Config :=
  setFlag defaultConfig build_rsa_remote_service_admin_shm_v2 true

/-! ### General lemmas about the resolution pipeline -/

/-- Pointwise order on flag valuations: `t` keeps every flag `s` enables. -/
def ConfigLe (s t : Config) : Prop := ∀ f, s f = true → t f = true

theorem configLe_refl (s : Config) : ConfigLe s s := fun _ h => h

theorem configLe_trans {s t u : Config} (h1 : ConfigLe s t) (h2 : ConfigLe t u) :
    ConfigLe s u := fun f hf => h2 f (h1 f hf)

theorem setFlag_self {s : Config} {f : Flag} {b : Bool} (h : s f = b) :
    setFlag s f b = s := by
  funext g
  by_cases hg : g = f
  · subst hg; simp [setFlag, h]
  · simp [setFlag, hg]

theorem setFlag_other {s : Config} {f g : Flag} {b : Bool} (h : g ≠ f) :
    setFlag s f b g = s g := by simp [setFlag, h]

theorem setAllTrue_le (s : Config) (fs : List Flag) : ConfigLe s (setAllTrue s fs) := by
  induction fs generalizing s with
  | nil => exact configLe_refl s
  | cons a as ih =>
      intro f hf
      have h1 : setFlag s a true f = true := by
        by_cases hfa : f = a
        · subst hfa; simp [setFlag]
        · rw [setFlag_other hfa]; exact hf
      exact ih (setFlag s a true) f h1

theorem setAllTrue_not_mem {s : Config} {f : Flag} {fs : List Flag} (h : f ∉ fs) :
    setAllTrue s fs f = s f := by
  induction fs generalizing s with
  | nil => rfl
  | cons a as ih =>
      have hfa : f ≠ a := fun hc => h (hc ▸ List.mem_cons_self a as)
      have hfs : f ∉ as := fun hc => h (List.mem_cons_of_mem a hc)
      show setAllTrue (setFlag s a true) as f = s f
      rw [ih hfs, setFlag_other hfa]

theorem setAllTrue_mem {s : Config} {f : Flag} {fs : List Flag} (h : f ∈ fs) :
    setAllTrue s fs f = true := by
  induction fs generalizing s with
  | nil => exact absurd h (List.not_mem_nil f)
  | cons a as ih =>
      show setAllTrue (setFlag s a true) as f = true
      by_cases hfs : f ∈ as
      · exact ih hfs
      · have hfa : f = a := by
          rcases List.mem_cons.mp h with h' | h'
          · exact h'
          · exact absurd h' hfs
        rw [setAllTrue_not_mem hfs]
        subst hfa; simp [setFlag]

theorem setAllTrue_noop {s : Config} {fs : List Flag} (h : ∀ f ∈ fs, s f = true) :
    setAllTrue s fs = s := by
  induction fs with
  | nil => rfl
  | cons a as ih =>
      show setAllTrue (setFlag s a true) as = s
      rw [setFlag_self (h a (List.mem_cons_self a as))]
      exact ih (fun f hf => h f (List.mem_cons_of_mem a hf))

theorem list_any_congr {α : Type} {l : List α} {p q : α → Bool}
    (h : ∀ a ∈ l, p a = q a) : l.any p = l.any q := by
  induction l with
  | nil => rfl
  | cons a as ih =>
      simp only [List.any_cons]
      rw [h a (List.mem_cons_self a as),
        ih (fun b hb => h b (List.mem_cons_of_mem a hb))]

theorem list_all_congr {α : Type} {l : List α} {p q : α → Bool}
    (h : ∀ a ∈ l, p a = q a) : l.all p = l.all q := by
  induction l with
  | nil => rfl
  | cons a as ih =>
      simp only [List.all_cons]
      rw [h a (List.mem_cons_self a as),
        ih (fun b hb => h b (List.mem_cons_of_mem a hb))]

/-- A rule's condition reads only its `anyOf` and `allOf` flags. -/
theorem Rule.holds_congr {r : Rule} {s t : Config}
    (h : ∀ f ∈ r.anyOf ++ r.allOf, s f = t f) : r.holds s = r.holds t := by
  unfold Rule.holds
  rw [list_any_congr (fun f hf => h f (List.mem_append_left _ hf)),
    list_all_congr (fun f hf => h f (List.mem_append_right _ hf))]

/-- A rule's condition is monotone: enabling more flags never turns a
holding condition off. -/
theorem Rule.holds_mono {r : Rule} {s t : Config} (hle : ConfigLe s t)
    (h : r.holds s = true) : r.holds t = true := by
  unfold Rule.holds at h ⊢
  simp only [Bool.and_eq_true, List.any_eq_true, List.all_eq_true] at h ⊢
  obtain ⟨⟨x, hx, hxs⟩, hall⟩ := h
  exact ⟨⟨x, hx, hle x hxs⟩, fun f hf => hle f (hall f hf)⟩

theorem applyRule_pos {s : Config} {r : Rule} (h : r.holds s = true) :
    applyRule s r = setAllTrue s r.sets := by
  unfold applyRule
  rw [if_pos h]

theorem applyRule_neg {s : Config} {r : Rule} (h : ¬r.holds s = true) :
    applyRule s r = s := by
  unfold applyRule
  rw [if_neg h]

theorem applyRule_le (s : Config) (r : Rule) : ConfigLe s (applyRule s r) := by
  unfold applyRule
  split
  · exact setAllTrue_le s r.sets
  · exact configLe_refl s

theorem applyRule_not_mem {s : Config} {r : Rule} {f : Flag} (h : f ∉ r.sets) :
    applyRule s r f = s f := by
  unfold applyRule
  split
  · exact setAllTrue_not_mem h
  · rfl

theorem applyRules_le (s : Config) (L : List Rule) : ConfigLe s (applyRules s L) := by
  induction L generalizing s with
  | nil => exact configLe_refl s
  | cons r rest ih =>
      exact configLe_trans (applyRule_le s r) (ih (applyRule s r))

theorem applyRules_not_mem {f : Flag} {L : List Rule} (h : ∀ r ∈ L, f ∉ r.sets)
    (s : Config) : applyRules s L f = s f := by
  induction L generalizing s with
  | nil => rfl
  | cons r rest ih =>
      show applyRules (applyRule s r) rest f = s f
      rw [ih (fun r' hr' => h r' (List.mem_cons_of_mem r hr')) (applyRule s r),
        applyRule_not_mem (h r (List.mem_cons_self r rest))]

/-- If a rule's condition already holds when the pass starts, the pass sets
all of that rule's target flags (the condition is monotone and no rule ever
disables a flag, so it still holds when the rule itself is reached). -/
theorem applyRules_fires {r : Rule} {L : List Rule} (hr : r ∈ L) {s : Config}
    (hp : r.holds s = true) : ∀ f ∈ r.sets, applyRules s L f = true := by
  induction L generalizing s with
  | nil => exact absurd hr (List.not_mem_nil r)
  | cons a rest ih =>
      intro f hf
      show applyRules (applyRule s a) rest f = true
      rcases List.mem_cons.mp hr with h' | h'
      · subst h'
        have h1 : applyRule s r f = true := by
          unfold applyRule
          rw [if_pos hp]
          exact setAllTrue_mem hf
        exact applyRules_le (applyRule s r) rest f h1
      · exact ih h' (Rule.holds_mono (applyRule_le s a) hp) f hf

/-- The declaration-order discipline of the cascade: no rule's trigger flag
is assigned by that rule or by any later rule, so a single forward pass
reaches a fixed point. -/
def WellOrdered : List Rule → Prop
  | [] => True
  | r :: rest =>
      (∀ r' ∈ r :: rest, ∀ f ∈ r.anyOf ++ r.allOf, f ∉ r'.sets) ∧ WellOrdered rest

instance instDecidableWellOrdered : (L : List Rule) → Decidable (WellOrdered L)
  | [] => isTrue trivial
  | _ :: rest =>
      @instDecidableAnd _ _ inferInstance (instDecidableWellOrdered rest)

theorem ruleList_wellOrdered : WellOrdered ruleList := by decide

/-- On a well-ordered rule list, one forward pass is a fixed point of a
second pass. -/
theorem applyRules_idem : ∀ (L : List Rule), WellOrdered L → ∀ s : Config,
    applyRules (applyRules s L) L = applyRules s L := by
  intro L
  induction L with
  | nil => intro _ _; rfl
  | cons r rest ih =>
      intro hwo s
      obtain ⟨hhead, hrest⟩ := hwo
      have hts : ∀ f ∈ r.anyOf ++ r.allOf,
          applyRules (applyRule s r) rest f = s f := by
        intro f hf
        rw [applyRules_not_mem
            (fun r' hr' => hhead r' (List.mem_cons_of_mem r hr') f hf)
            (applyRule s r),
          applyRule_not_mem (hhead r (List.mem_cons_self r rest) f hf)]
      have hpred : r.holds (applyRules (applyRule s r) rest) = r.holds s :=
        Rule.holds_congr hts
      have hfix : applyRule (applyRules (applyRule s r) rest) r =
          applyRules (applyRule s r) rest := by
        by_cases hp : r.holds s = true
        · have htargets : ∀ f ∈ r.sets,
              applyRules (applyRule s r) rest f = true := by
            intro f hf
            have h1 : applyRule s r f = true := by
              unfold applyRule
              rw [if_pos hp]
              exact setAllTrue_mem hf
            exact applyRules_le (applyRule s r) rest f h1
          rw [applyRule_pos (by rw [hpred]; exact hp)]
          exact setAllTrue_noop htargets
        · rw [applyRule_neg (by rw [hpred]; exact hp)]
      show applyRules (applyRule (applyRules (applyRule s r) rest) r) rest =
        applyRules (applyRule s r) rest
      rw [hfix]
      exact ih hrest (applyRule s r)

/-! ### Facts about the concrete pipeline -/

theorem build_all_not_target : ∀ r ∈ ruleList, build_all ∉ r.sets := by decide

theorem shm_v2_not_target :
    ∀ r ∈ ruleList, build_rsa_remote_service_admin_shm_v2 ∉ r.sets := by decide

theorem zeroconf_not_target :
    ∀ r ∈ ruleList, build_rsa_discovery_zeroconf ∉ r.sets := by decide

theorem bonjour_not_target :
    ∀ r ∈ ruleList, build_shell_bonjour ∉ r.sets := by decide

theorem applyPlatform_linux (s : Config) : applyPlatform "Linux" s = s := by
  unfold applyPlatform
  simp

theorem applyPlatform_other {os : String} {s : Config} {f : Flag}
    (h1 : f ≠ build_rsa_remote_service_admin_shm_v2)
    (h2 : f ≠ build_rsa_discovery_zeroconf) (h3 : f ≠ build_shell_bonjour) :
    applyPlatform os s f = s f := by
  unfold applyPlatform
  split
  · rw [setFlag_other h3, setFlag_other h2, setFlag_other h1]
  · rfl

theorem applyPlatform_forces {os : String} (s : Config) (hos : os ≠ "Linux") :
    applyPlatform os s build_rsa_remote_service_admin_shm_v2 = false ∧
    applyPlatform os s build_rsa_discovery_zeroconf = false ∧
    applyPlatform os s build_shell_bonjour = false := by
  unfold applyPlatform
  rw [if_pos hos]
  refine ⟨?_, ?_, ?_⟩
  · rw [setFlag_other (by decide), setFlag_other (by decide)]
    simp [setFlag]
  · rw [setFlag_other (by decide)]
    simp [setFlag]
  · simp [setFlag]

theorem applyBuildAll_pos {s : Config} (h : s build_all = true) :
    applyBuildAll s = setAllTrue s buildFlags := by
  unfold applyBuildAll
  rw [h]
  simp

theorem applyBuildAll_neg {s : Config} (h : s build_all = false) :
    applyBuildAll s = s := by
  unfold applyBuildAll
  rw [h]
  simp

theorem applyBuildAll_build_all (s : Config) :
    applyBuildAll s build_all = s build_all := by
  by_cases h : s build_all = true
  · rw [applyBuildAll_pos h, setAllTrue_mem (by decide), h]
  · rw [applyBuildAll_neg (Bool.not_eq_true _ ▸ h)]

/-- The three platform-constrained flags are `false` in every configuration
resolved for a non-Linux target: the platform step forces them off and no
implication rule assigns them. -/
theorem configure_platform_false {ovr : Overrides} {os : String}
    (hos : os ≠ "Linux") :
    configure ovr os build_rsa_remote_service_admin_shm_v2 = false ∧
    configure ovr os build_rsa_discovery_zeroconf = false ∧
    configure ovr os build_shell_bonjour = false := by
  unfold configure
  obtain ⟨h1, h2, h3⟩ :=
    applyPlatform_forces (applyBuildAll (fillDefaults ovr)) hos
  exact ⟨(applyRules_not_mem shm_v2_not_target _).trans h1,
    (applyRules_not_mem zeroconf_not_target _).trans h2,
    (applyRules_not_mem bonjour_not_target _).trans h3⟩

/-- `build_all` passes through the whole pipeline untouched. -/
theorem configure_build_all (ovr : Overrides) (os : String) :
    configure ovr os build_all = fillDefaults ovr build_all := by
  unfold configure
  rw [applyRules_not_mem build_all_not_target _,
    applyPlatform_other (by decide) (by decide) (by decide),
    applyBuildAll_build_all]

theorem fillDefaults_toOverrides (s : Config) :
    fillDefaults (toOverrides s) = s := funext fun _ => rfl

/-- Re-running the bulk `build_all` step and the platform step on an already
resolved configuration changes nothing. -/
theorem platform_buildAll_fixed (ovr : Overrides) (os : String) :
    applyPlatform os (applyBuildAll (configure ovr os)) = configure ovr os := by
  by_cases hball : fillDefaults ovr build_all = true
  · have hta : configure ovr os build_all = true := by
      rw [configure_build_all]; exact hball
    have hbt : applyBuildAll (configure ovr os) =
        setAllTrue (configure ovr os) buildFlags := applyBuildAll_pos hta
    by_cases hos : os = "Linux"
    · have hb : ∀ f ∈ buildFlags, configure ovr os f = true := by
        intro f hf
        have h1 : applyBuildAll (fillDefaults ovr) f = true := by
          rw [applyBuildAll_pos hball]; exact setAllTrue_mem hf
        have h2 : applyPlatform os (applyBuildAll (fillDefaults ovr)) f = true := by
          rw [hos, applyPlatform_linux]; exact h1
        exact applyRules_le _ ruleList f h2
      rw [hbt, setAllTrue_noop hb, hos, applyPlatform_linux]
    · obtain ⟨c1, c2, c3⟩ := @configure_platform_false ovr _ hos
      have hb : ∀ f ∈ buildFlags,
          f ≠ build_rsa_remote_service_admin_shm_v2 →
          f ≠ build_rsa_discovery_zeroconf → f ≠ build_shell_bonjour →
          configure ovr os f = true := by
        intro f hf h1 h2 h3
        have ha : applyBuildAll (fillDefaults ovr) f = true := by
          rw [applyBuildAll_pos hball]; exact setAllTrue_mem hf
        have hp : applyPlatform os (applyBuildAll (fillDefaults ovr)) f = true := by
          rw [applyPlatform_other h1 h2 h3]; exact ha
        exact applyRules_le _ ruleList f hp
      rw [hbt]
      unfold applyPlatform
      rw [if_pos hos]
      funext f
      by_cases h3 : f = build_shell_bonjour
      · subst h3; rw [c3]; simp [setFlag]
      · by_cases h2 : f = build_rsa_discovery_zeroconf
        · subst h2
          rw [setFlag_other (by decide), c2]
          simp [setFlag]
        · by_cases h1 : f = build_rsa_remote_service_admin_shm_v2
          · subst h1
            rw [setFlag_other (by decide), setFlag_other (by decide), c1]
            simp [setFlag]
          · rw [setFlag_other h3, setFlag_other h2, setFlag_other h1]
            by_cases hf : f ∈ buildFlags
            · rw [setAllTrue_mem hf, hb f hf h1 h2 h3]
            · rw [setAllTrue_not_mem hf]
  · have hball' : fillDefaults ovr build_all = false :=
      Bool.eq_false_iff.mpr hball
    have hta : configure ovr os build_all = false := by
      rw [configure_build_all]; exact hball'
    rw [applyBuildAll_neg hta]
    by_cases hos : os = "Linux"
    · rw [hos, applyPlatform_linux]
    · obtain ⟨c1, c2, c3⟩ := @configure_platform_false ovr _ hos
      unfold applyPlatform
      rw [if_pos hos, setFlag_self c1, setFlag_self c2, setFlag_self c3]

theorem allFlags_complete : ∀ f : Flag, f ∈ allFlags := by decide

/-! ### Claim theorems -/

/-- Claim C1, counterexample: for overrides `{build_shell_bonjour: true}`
on Macos, `configure` silently forces the flag back to `False` (line 179)
before `validate` runs, so `validate` accepts the configuration instead of
rejecting it with the `UnsupportedPlatform` error the claim predicts. -/
theorem bonjour_macos_not_rejected :
    configure ovrBonjour "Macos" build_shell_bonjour = false ∧
    validate (configure ovrBonjour "Macos") "512" "Macos" = none := by
  constructor
  · decide
  · decide

/-- Claim C1, amended: for every override set resolved for Macos,
`configure` silently disables `build_shell_bonjour` (even when the user
explicitly requested it), and `validate` on the resolved configuration then
passes (with the default buffer size): the bonjour platform check of
`validate` can never fire after `configure`. -/
theorem bonjour_macos_silently_disabled (ovr : Overrides) :
    configure ovr "Macos" build_shell_bonjour = false ∧
    validate (configure ovr "Macos") "512" "Macos" = none := by
  obtain ⟨c1, c2, c3⟩ :=
    @configure_platform_false ovr "Macos" (by decide)
  refine ⟨c3, ?_⟩
  unfold validate
  rw [if_neg (by decide), if_neg (by simp [c1]), if_neg (by simp [c2]),
    if_neg (by simp [c3])]
  decide

/-- Claim C2, counterexample: the Platform Constraint Set is NOT applied
after the implication rules.  On input `{build_shell_bonjour: true}` with
target Macos the code (platform step before the cascade) yields
`build_shell = false`, while the claimed order (cascade first, platform
step after) would yield `build_shell = true`, because the rule
`build_shell_bonjour -> build_shell` would fire before the flag is forced
off. -/
theorem platform_not_after_rules :
    configure ovrBonjour "Macos" build_shell = false ∧
    applyPlatform "Macos"
      (applyRules (applyBuildAll (fillDefaults ovrBonjour)) ruleList)
      build_shell = true := by
  constructor
  · decide
  · decide

/-- Claim C2, amended: the Platform Constraint Set is applied strictly
BEFORE the implication rules (configure lines 176-179 precede 181-342).
The platform-forced flags nevertheless end up `false` on every non-Linux
target because no implication rule assigns them, and the implication
cascade never sets any already-enabled flag to false. -/
theorem platform_before_rules_and_rules_only_enable (ovr : Overrides)
    (os : String) (s : Config) (f : Flag) (hos : os ≠ "Linux")
    (hsf : s f = true) :
    configure ovr os build_rsa_remote_service_admin_shm_v2 = false ∧
    configure ovr os build_rsa_discovery_zeroconf = false ∧
    configure ovr os build_shell_bonjour = false ∧
    applyRules s ruleList f = true := by
  obtain ⟨c1, c2, c3⟩ := @configure_platform_false ovr _ hos
  exact ⟨c1, c2, c3, applyRules_le s ruleList f hsf⟩

/-- Claim C2, witness for the amended theorem at `ovrEmpty`, `Macos`,
`defaultConfig` and `celix_cxx14`. -/
theorem platform_before_rules_witness :
    ("Macos" : String) ≠ "Linux" ∧ defaultConfig celix_cxx14 = true ∧
    (configure ovrEmpty "Macos" build_rsa_remote_service_admin_shm_v2 = false ∧
     configure ovrEmpty "Macos" build_rsa_discovery_zeroconf = false ∧
     configure ovrEmpty "Macos" build_shell_bonjour = false ∧
     applyRules defaultConfig ruleList celix_cxx14 = true) :=
  ⟨by decide, by decide,
    platform_before_rules_and_rules_only_enable ovrEmpty "Macos" defaultConfig
      celix_cxx14 (by decide) (by decide)⟩

/-- Claim C3, counterexample: `validate` raises on the FIRST failing check
and aggregates nothing.  A configuration violating both the OS gate and the
buffer-size check reports only the OS gate; a configuration violating both
the shm_v2 platform check and the buffer-size check reports only the
shm_v2 check; the buffer-size violation alone does produce its own error,
so in each combined case a second violation went unreported. -/
theorem validate_reports_only_first_failure :
    validate (configure ovrEmpty "Windows") "-1" "Windows" =
      some "Celix is only supported for Linux/Macos" ∧
    validate shmConfig "-1" "Macos" =
      some "Celix build_rsa_remote_service_admin_shm_v2 is only supported for Linux" ∧
    validate defaultConfig "-1" "Linux" =
      some "celix_err_buffer_size must be a positive number" := by
  refine ⟨?_, ?_, ?_⟩
  · decide
  · decide
  · decide

/-- Claim C3, amended: the validator stops at the first failing check in
source order (OS gate, shm_v2, zeroconf, bonjour, buffer size) and the
caller receives only that single violation.  In particular whenever the
shm_v2 check fails on Macos, the reported error is its message, whatever
the buffer size. -/
theorem validate_first_failure_wins (opts : Config) (buf : String)
    (h : opts build_rsa_remote_service_admin_shm_v2 = true) :
    validate opts buf "Macos" =
      some "Celix build_rsa_remote_service_admin_shm_v2 is only supported for Linux" := by
  unfold validate
  rw [if_neg (by decide), if_pos ⟨h, by decide⟩]

/-- Claim C3, witness for the amended theorem: the shm_v2 message is
reported even though the buffer size `-1` is also invalid. -/
theorem validate_first_failure_witness :
    shmConfig build_rsa_remote_service_admin_shm_v2 = true ∧
    validate shmConfig "-1" "Macos" =
      some "Celix build_rsa_remote_service_admin_shm_v2 is only supported for Linux" :=
  ⟨by decide, validate_first_failure_wins shmConfig "-1" (by decide)⟩

/-- Claim C4, counterexample: the rule `build_shell_bonjour -> build_shell`
is in the rule set and its predicate holds on the input flag values
(`build_shell_bonjour` explicitly true), `build_shell` is not touched by
any Platform Constraint, yet the resolved configuration for Macos has
`build_shell = false`: the platform step ran before the cascade and turned
the trigger off, so the rule never fired. -/
theorem rule_predicate_on_input_insufficient :
    (⟨[build_shell_bonjour], [], [build_shell]⟩ : Rule) ∈ ruleList ∧
    fillDefaults ovrBonjour build_shell_bonjour = true ∧
    configure ovrBonjour "Macos" build_shell = false := by
  refine ⟨?_, ?_, ?_⟩
  · decide
  · decide
  · decide

/-- Claim C4, amended: for every implication rule whose predicate holds on
the working mapping entering the cascade (after the `build_all` bulk step
and the platform constraints), all its target flags are true in the
resolved configuration, regardless of explicit user `false` values; and
the cascade itself never sets any enabled flag to false. -/
theorem rules_fire_from_cascade_entry (r : Rule) (ovr : Overrides)
    (os : String) (s : Config) (f : Flag) (hr : r ∈ ruleList)
    (hp : r.holds (applyPlatform os (applyBuildAll (fillDefaults ovr))) = true)
    (hsf : s f = true) :
    (r.sets.all fun g => configure ovr os g) = true ∧
    applyRules s ruleList f = true := by
  constructor
  · simp only [List.all_eq_true]
    intro g hg
    exact applyRules_fires hr hp g hg
  · exact applyRules_le s ruleList f hsf

/-- Claim C4, witness for the amended theorem: the rule
`build_remote_shell -> build_shell` fires although the user explicitly set
`build_shell = False`. -/
theorem rules_fire_witness :
    (⟨[build_remote_shell], [], [build_shell]⟩ : Rule) ∈ ruleList ∧
    (Rule.holds ⟨[build_remote_shell], [], [build_shell]⟩
      (applyPlatform "Linux"
        (applyBuildAll (fillDefaults ovrRemoteShellNoShell))) = true) ∧
    defaultConfig celix_cxx17 = true ∧
    (((⟨[build_remote_shell], [], [build_shell]⟩ : Rule).sets.all
        fun g => configure ovrRemoteShellNoShell "Linux" g) = true ∧
      applyRules defaultConfig ruleList celix_cxx17 = true) :=
  ⟨by decide, by decide, by decide,
    rules_fire_from_cascade_entry ⟨[build_remote_shell], [], [build_shell]⟩
      ovrRemoteShellNoShell "Linux" defaultConfig celix_cxx17 (by decide)
      (by decide) (by decide)⟩

/-- Claim C5: on input `{build_remote_shell: true}` for Linux, the chained
implications resolve `build_shell`, `build_shell_api`, `build_log_helper`,
`build_framework` and `build_utils` all to true. -/
theorem remote_shell_chain :
    configure ovrRemoteShell "Linux" build_shell = true ∧
    configure ovrRemoteShell "Linux" build_shell_api = true ∧
    configure ovrRemoteShell "Linux" build_log_helper = true ∧
    configure ovrRemoteShell "Linux" build_framework = true ∧
    configure ovrRemoteShell "Linux" build_utils = true := by
  refine ⟨?_, ?_, ?_, ?_, ?_⟩
  · decide
  · decide
  · decide
  · decide
  · decide

/-- Claim C6: on input `{build_all: true}` for Linux, every flag whose
identifier begins with `build_` resolves to true (the bulk step at lines
171-174 forces them before the cascade, and nothing disables them on
Linux). -/
theorem build_all_forces_all_build_flags (f : Flag)
    (hf : isBuildFlag f = true) : configure ovrAll "Linux" f = true := by
  have hmem : f ∈ buildFlags := List.mem_filter.mpr ⟨allFlags_complete f, hf⟩
  have h1 : applyBuildAll (fillDefaults ovrAll) f = true := by
    rw [applyBuildAll_pos (by decide)]
    exact setAllTrue_mem hmem
  unfold configure
  rw [applyPlatform_linux]
  exact applyRules_le _ ruleList f h1

/-- Claim C6, witness at `build_rsa_json_rpc`. -/
theorem build_all_forces_witness :
    isBuildFlag build_rsa_json_rpc = true ∧
    configure ovrAll "Linux" build_rsa_json_rpc = true :=
  ⟨by decide, build_all_forces_all_build_flags build_rsa_json_rpc (by decide)⟩

/-- Claim C7, counterexample: `ovrEmpty` and `ovrAll` differ only in the
identity-excluded flag `build_all`, yet their resolved configurations get
different identity keys: the bulk step propagates `build_all` into the
identity-relevant flag `build_framework` before `package_id` deletes
`build_all` itself. -/
theorem identity_unstable_under_build_all :
    ovrEmpty build_all = none ∧ ovrAll build_all = some true ∧
    identityExcluded build_all = true ∧
    identityExcluded build_framework = false ∧
    package_id (configure ovrEmpty "Linux") build_framework = some false ∧
    package_id (configure ovrAll "Linux") build_framework = some true := by
  refine ⟨?_, ?_, ?_, ?_, ?_, ?_⟩
  · decide
  · decide
  · decide
  · decide
  · decide
  · decide

/-- Claim C7, amended: identity stability holds at the resolved level: two
RESOLVED configurations that agree on every identity-relevant flag receive
identical identity keys (the key ignores exactly the excluded flags). -/
theorem identity_stable_on_resolved (o1 o2 : Config)
    (h : (allFlags.all fun f => identityExcluded f || (o1 f == o2 f)) = true) :
    package_id o1 = package_id o2 := by
  funext f
  by_cases he : identityExcluded f = true
  · simp [package_id, he]
  · have hne : identityExcluded f = false := Bool.eq_false_iff.mpr he
    have h3 := List.all_eq_true.mp h f (allFlags_complete f)
    rw [hne] at h3
    have h2 : o1 f = o2 f := by simpa using h3
    simp [package_id, hne, h2]

/-- Claim C7, witness for the amended theorem: flipping only the excluded
flag `build_all` in a resolved configuration leaves the key unchanged. -/
theorem identity_stable_witness :
    (allFlags.all fun f => identityExcluded f ||
      (defaultConfig f == setFlag defaultConfig build_all true f)) = true ∧
    package_id defaultConfig =
      package_id (setFlag defaultConfig build_all true) :=
  ⟨by decide, identity_stable_on_resolved defaultConfig
    (setFlag defaultConfig build_all true) (by decide)⟩

/-- Claim C8, counterexample: `package_id` does NOT delete the
testing-control flag `enable_testing` (lines 142-154 delete eleven other
flags), so `enable_testing` appears in the identity key, contradicting the
claim that no testing-only flag is ever included. -/
theorem enable_testing_in_identity_key :
    identityExcluded enable_testing = false ∧
    package_id (configure ovrEmpty "Linux") enable_testing = some false := by
  constructor
  · decide
  · decide

/-- Claim C8, amended: the identity normalizer removes exactly the eleven
statically listed flags (`build_all`, the integration/example/bonjour
variants, the cxx11/cxx14 testing toggles, the cmake-warning-test, CI and
ccache toggles); other test- and developer-toggles, in particular
`enable_testing` and `enable_code_coverage`, remain in the key with their
resolved values. -/
theorem identity_excluded_exactly (o : Config) :
    ([build_all, build_pubsub_integration, build_pubsub_examples,
      build_cxx_rsa_integration, build_examples, build_shell_bonjour,
      enable_testing_dependency_manager_for_cxx11, enable_testing_for_cxx14,
      enable_cmake_warning_tests, enable_testing_on_ci,
      enable_ccache].all fun f => (package_id o f).isNone) = true ∧
    package_id o enable_testing = some (o enable_testing) ∧
    package_id o enable_code_coverage = some (o enable_code_coverage) :=
  ⟨rfl, rfl, rfl⟩

/-- Claim C9: resolution is idempotent: feeding the complete flag mapping
of a resolved configuration back as the user overrides, with the same
target OS, resolves to the same configuration.  The rule list is
well-ordered (no rule's trigger is assigned at or after that rule), so one
forward pass is already closed; re-running the bulk and platform steps on
a resolved configuration changes nothing. -/
theorem configure_idempotent (ovr : Overrides) (os : String) :
    configure (toOverrides (configure ovr os)) os = configure ovr os := by
  show applyRules (applyPlatform os (applyBuildAll
      (fillDefaults (toOverrides (configure ovr os))))) ruleList =
    configure ovr os
  rw [fillDefaults_toOverrides, platform_buildAll_fixed]
  exact applyRules_idem ruleList ruleList_wellOrdered _

/-- Claim C10: for every target OS other than Linux and Macos, `validate`
raises `ConanInvalidConfiguration` with the message
`Celix is only supported for Linux/Macos`, whatever the flag values and
buffer size: the OS gate is the first check evaluated. -/
theorem validate_rejects_unsupported_os (opts : Config) (buf : String)
    (os : String) (h1 : os ≠ "Linux") (h2 : os ≠ "Macos") :
    validate opts buf os = some "Celix is only supported for Linux/Macos" := by
  unfold validate
  rw [if_pos ⟨h1, h2⟩]

/-- Claim C10, witness at OS `Windows` with an offending flag and an
invalid buffer size: the OS message is still the one reported. -/
theorem validate_rejects_unsupported_os_witness :
    ("Windows" : String) ≠ "Linux" ∧ ("Windows" : String) ≠ "Macos" ∧
    validate shmConfig "-1" "Windows" =
      some "Celix is only supported for Linux/Macos" :=
  ⟨by decide, by decide,
    validate_rejects_unsupported_os shmConfig "-1" "Windows" (by decide)
      (by decide)⟩

end Celix
